import Mathlib

/-!
Shallow embedding of `guillotina/db/storages/pg.py`: the SQL statement
catalog, the `store` write protocol, conflict detection, annotation reads,
blob chunk access and the bad-connection recovery path of
`PostgresqlStorage`, together with theorems checking the repository's
specification against this embedding.

Conventions: machine integers of the source are `Int`/`Nat`; nullable
values are `Option`; a raised exception is an explicit error value;
awaited side effects (lock acquisition, queries on the shared read
session, pool recreation) are recorded as explicit events or state
transitions.
-/

set_option autoImplicit false

namespace PG

/-- Substring helper: `needle` is a prefix of `hay` (on character lists). -/
def strStarts : List Char → List Char → Bool
  | _, [] => true
  | [], _ :: _ => false
  | a :: as, b :: bs => a == b && strStarts as bs

/-- Substring helper: `needle` occurs somewhere inside the list. -/
def hasSubL (needle : List Char) : List Char → Bool
  | [] => strStarts [] needle
  | c :: cs => strStarts (c :: cs) needle || hasSubL needle cs

/-- Embedding of Python's `needle in hay` substring test on strings. -/
def strContains (hay needle : String) : Bool :=
  hasSubL needle.toList hay.toList

/-- Modelled from the spec: `MAX_OID_LENGTH` lives in `guillotina.db.oid`,
which is not part of the sources at hand; the spec only fixes that it is a
single process-wide width constant for all oid-bearing columns, and none of
the claims depend on its numeric value. -/
def MAX_OID_LENGTH : Nat := 64

/-- The `varchar(MAX_OID_LENGTH)` type annotation used by the statements. -/
def oidType : String := "varchar(" ++ toString MAX_OID_LENGTH ++ ")"

/-- The upper-case variant `VARCHAR(MAX_OID_LENGTH)` used by blob statements. -/
def oidTypeU : String := "VARCHAR(" ++ toString MAX_OID_LENGTH ++ ")"

/-- `_wrap_return_count` from `pg.py`: wraps a write statement so that it
returns a single row whose `count` column is the number of affected rows. -/
def wrap_return_count (txt : String) : String :=
  "WITH rows AS (\n" ++ txt ++ "\n    RETURNING 1\n)\nSELECT count(*) FROM rows"

/-- The `NAIVE_UPSERT` template of `pg.py`, as a function of the table name
(the registry materializes the `table_name` hole; we model templates as
functions of the table name). -/
def NAIVE_UPSERT (t : String) : String :=
  "\nINSERT INTO " ++ t ++
  "\n(zoid, tid, state_size, part, resource, of, otid, parent_id, id, type, json, state)" ++
  "\nVALUES ($1::" ++ oidType ++ ", $2::int, $3::int, $4::int, $5::boolean," ++
  "\n        $6::" ++ oidType ++ ", $7::int, $8::" ++ oidType ++ "," ++
  "\n        $9::text, $10::text, $11::json, $12::bytea)" ++
  "\nON CONFLICT (zoid)" ++
  "\nDO UPDATE SET" ++
  "\n    tid = EXCLUDED.tid," ++
  "\n    state_size = EXCLUDED.state_size," ++
  "\n    part = EXCLUDED.part," ++
  "\n    resource = EXCLUDED.resource," ++
  "\n    of = EXCLUDED.of," ++
  "\n    otid = EXCLUDED.otid," ++
  "\n    parent_id = EXCLUDED.parent_id," ++
  "\n    id = EXCLUDED.id," ++
  "\n    type = EXCLUDED.type," ++
  "\n    json = EXCLUDED.json," ++
  "\n    state = EXCLUDED.state"

/-- The `NAIVE_UPDATE` template of `pg.py` (update without checking the tid
of the updated object), as a function of the table name. -/
def NAIVE_UPDATE (t : String) : String :=
  "\nUPDATE " ++ t ++
  "\nSET" ++
  "\n    tid = $2::int," ++
  "\n    state_size = $3::int," ++
  "\n    part = $4::int," ++
  "\n    resource = $5::boolean," ++
  "\n    of = $6::" ++ oidType ++ "," ++
  "\n    otid = $7::int," ++
  "\n    parent_id = $8::" ++ oidType ++ "," ++
  "\n    id = $9::text," ++
  "\n    type = $10::text," ++
  "\n    json = $11::json," ++
  "\n    state = $12::bytea" ++
  "\nWHERE" ++
  "\n    zoid = $1::" ++ oidType

/-- The `TXN_CONFLICTS` template of `pg.py`. -/
def TXN_CONFLICTS (t : String) : String :=
  "\n    SELECT zoid, tid, state_size, resource, type, id" ++
  "\n    FROM " ++ t ++
  "\n    WHERE tid > $1"

/-- The `GET_ANNOTATION` template of `pg.py`. -/
def GET_ANNOTATION_SQL (t : String) : String :=
  "\nSELECT zoid, tid, state_size, resource, type, state, id, parent_id" ++
  "\nFROM " ++ t ++
  "\nWHERE" ++
  "\n    of = $1::" ++ oidType ++ " AND" ++
  "\n    id = $2::text" ++ "\n"

/-- The `GET_ANNOTATIONS_KEYS` template of `pg.py`. -/
def GET_ANNOTATIONS_KEYS_SQL (t : String) : String :=
  "\nSELECT id, parent_id" ++
  "\nFROM " ++ t ++
  "\nWHERE of = $1::" ++ oidType ++ "\n"

/-- The `READ_BLOB_CHUNK` template of `pg.py`. -/
def READ_BLOB_CHUNK_SQL (t : String) : String :=
  "\nSELECT * from " ++ t ++
  "\nWHERE bid = $1::" ++ oidTypeU ++
  "\nAND chunk_index = $2::int" ++ "\n"

/-- The statement registry built by the `register_sql` calls of `pg.py`
(restricted to the statements the development needs).  The registration
mechanism (`register_sql` / `SQLStatements.get`) lives in
`guillotina.db.storages.utils`, which is not among the sources at hand; it
is modelled from the spec as a name-indexed catalog of templates that
`get(name, table)` materializes against a table name.  The registered
contents below are taken verbatim from `pg.py`. -/
def sqlRegistry : List (String × (String → String)) :=
  [ ("UPSERT", fun t => wrap_return_count (NAIVE_UPSERT t ++
      "\nWHERE\n    tid = EXCLUDED.otid")),
    ("NAIVE_UPSERT", fun t => wrap_return_count (NAIVE_UPSERT t)),
    ("UPDATE", fun t => wrap_return_count (NAIVE_UPDATE t ++ " AND tid = $7::int")),
    ("NAIVE_UPDATE", fun t => wrap_return_count (NAIVE_UPDATE t)),
    ("TXN_CONFLICTS", TXN_CONFLICTS),
    ("TXN_CONFLICTS_ON_OIDS", fun t => TXN_CONFLICTS t ++ " AND zoid = ANY($2)"),
    ("GET_ANNOTATION", GET_ANNOTATION_SQL),
    ("GET_ANNOTATIONS_KEYS", GET_ANNOTATIONS_KEYS_SQL),
    ("READ_BLOB_CHUNK", READ_BLOB_CHUNK_SQL) ]

/-- Modelled from the spec: `SQLStatements.get(name, table)` returns the
named statement materialized against the table name. -/
def sqlGet (name table : String) : Option String :=
  (sqlRegistry.lookup name).map (fun f => f table)

/-- Total version of `sqlGet` (the engine only asks for registered names). -/
def sqlGetD (name table : String) : String :=
  (sqlGet name table).getD ""

/-- Semantics of `RETURNING 1` on a write that affected `affected` rows:
one literal `1` per affected row. -/
def returningOnes (affected : Nat) : List Nat :=
  List.replicate affected 1

/-- Semantics of `SELECT count(*) FROM rows`: a single row carrying the
number of rows of the input. -/
def selectCountRows (rows : List Nat) : List Nat :=
  [rows.length]

/-- Executing a `wrap_return_count`-wrapped write whose inner write
affected `affected` rows. -/
def execWrapCount (affected : Nat) : List Nat :=
  selectCountRows (returningOnes affected)

/-- The fields of a persistent object that `store` consults:
`__new_marker__`, `_p_serial` and `_p_oid` (leading underscores dropped). -/
structure PObj where
  new_marker : Bool
  p_serial : Option Int
  p_oid : String
deriving DecidableEq

/-- The writer interface consumed by `store`: the attributes passed as
statement parameters.  `serialize()` and `get_json()` are external; their
results (`pickled`, `json`) are passed to `store` explicitly. -/
structure Writer where
  part : Option Int
  resource : Bool
  of : Option String
  parent_id : Option String
  id : Option String
  type : String
deriving DecidableEq

/-- A positional SQL parameter as passed by `store`. -/
inductive SqlParam where
  | s (v : String)
  | i (v : Int)
  | b (v : Bool)
  | optS (v : Option String)
  | optI (v : Option Int)
  | bytes (v : List Nat)
deriving DecidableEq

/-- Outcome of executing the write statement on the backend: either the
fetched rows (each row reduced to its `count` column) or a raised
backend exception, as distinguished by the handlers in `store`. -/
inductive ExecOutcome where
  | ok (result : List Int)
  | uniqueViolation (detail : String)
  | foreignKeyViolation
  | interfaceError (msg : String)
  | deadlock
deriving DecidableEq

/-- The exceptions `store` can raise, in the taxonomy of the code:
`ConflictIdOnContainer`, a re-raised unique violation, `TIDConflictError`,
`ConflictError`, or a re-raised interface error. -/
inductive StoreError where
  | conflictIdOnContainer
  | uniqueViolation (detail : String)
  | tidConflict
  | conflict
  | interfaceError (msg : String)
deriving DecidableEq

/-- Everything observable about one `store` call: the statement chosen and
its SQL text, the positional arguments, the outcome (normal return or
raised exception), the oids recorded in `txn.deleted`, whether the
incorrect-response-count error was logged, whether the large-object notice
was logged, and whether `txn._cache.store_object` was reached. -/
structure StoreRes where
  statement_name : String
  statement_sql : String
  args : List SqlParam
  outcome : Except StoreError Unit
  deleted : List String
  logged_count_error : Bool
  logged_large : Bool
  cache_stored : Bool

/-- `PostgresqlStorage.store`.  `oid`, `old_serial`, the writer, the object
and `txn._tid` are as in the source; `pickled` and `json` are the results
of the (external) serializer; `table` is `self._objects_table_name`;
`exec` is the backend's response to the executed statement.  The body
mirrors the source: statement choice on `__new_marker__`/`_p_serial`, the
12 positional parameters in order, the four exception translations, the
row-count inspection, and the final cache notification. -/
def store (oid : String) (old_serial : Option Int) (w : Writer) (obj : PObj)
    (tid : Int) (pickled : List Nat) (json : String) (table : String)
    (exec : ExecOutcome) : StoreRes :=
  let part : Int := w.part.getD 0
  let update : Bool := !obj.new_marker && obj.p_serial.isSome
  let name : String := if update then "UPDATE" else "NAIVE_UPSERT"
  let base : StoreRes :=
    { statement_name := name
      statement_sql := sqlGetD name table
      args := [SqlParam.s oid, SqlParam.i tid, SqlParam.i pickled.length,
               SqlParam.i part, SqlParam.b w.resource, SqlParam.optS w.of,
               SqlParam.optI old_serial, SqlParam.optS w.parent_id,
               SqlParam.optS w.id, SqlParam.s w.type, SqlParam.s json,
               SqlParam.bytes pickled]
      outcome := Except.ok ()
      deleted := []
      logged_count_error := false
      logged_large := decide (2 ^ 24 ≤ pickled.length)
      cache_stored := false }
  match exec with
  | ExecOutcome.ok result =>
      if result.length ≠ 1 ∨ result.headD 0 ≠ 1 then
        if update then
          { base with outcome := Except.error StoreError.tidConflict }
        else
          { base with logged_count_error := true, cache_stored := true }
      else
        { base with cache_stored := true }
  | ExecOutcome.uniqueViolation detail =>
      if strContains detail "Key (parent_id, id)" then
        { base with outcome := Except.error StoreError.conflictIdOnContainer }
      else
        { base with outcome := Except.error (StoreError.uniqueViolation detail) }
  | ExecOutcome.foreignKeyViolation =>
      { base with deleted := [obj.p_oid],
                  outcome := Except.error StoreError.tidConflict }
  | ExecOutcome.interfaceError msg =>
      if strContains msg "another operation is in progress" then
        { base with outcome := Except.error StoreError.conflict }
      else
        { base with outcome := Except.error (StoreError.interfaceError msg) }
  | ExecOutcome.deadlock =>
      { base with outcome := Except.error StoreError.conflict }

/-- An object-table row, restricted to the columns the modelled queries
filter or compare on. -/
structure ObjRow where
  zoid : String
  tid : Int
  of : Option String
  parent_id : Option String
  id : Option String
deriving DecidableEq

/-- Semantics of the registered `TXN_CONFLICTS` statement on a table state:
the rows whose `tid` exceeds the caller's tid. -/
def txnConflicts (db : List ObjRow) (tid : Int) : List ObjRow :=
  db.filter (fun r => decide (tid < r.tid))

/-- Semantics of `TXN_CONFLICTS_ON_OIDS`: as `TXN_CONFLICTS`, additionally
restricted to the given oids (`zoid = ANY($2)`). -/
def txnConflictsOnOids (db : List ObjRow) (tid : Int) (oids : List String) :
    List ObjRow :=
  db.filter (fun r => decide (tid < r.tid) && oids.contains r.zoid)

/-- Events recorded while running `get_conflicts`: taking the storage-wide
lock and fetching a statement on the shared read session. -/
inductive Ev where
  | acquire_storage_lock
  | read_conn_fetch (sql : String)
deriving DecidableEq

/-- `PostgresqlStorage.get_conflicts`.  `modified` is the key list of
`txn.modified`; `tid` is `txn._tid`; `db` is the current object-table
state; `table` is `self._objects_table_name`.  Returns the event trace
together with the fetched rows, mirroring the source: lock first, empty
answer for an empty modified map, the oid-restricted statement below 1000
modified oids and the global statement otherwise. -/
def get_conflicts (db : List ObjRow) (modified : List String) (tid : Int)
    (table : String) : List Ev × List ObjRow :=
  if modified.length = 0 then
    ([Ev.acquire_storage_lock], [])
  else if modified.length < 1000 then
    ([Ev.acquire_storage_lock,
      Ev.read_conn_fetch (sqlGetD "TXN_CONFLICTS_ON_OIDS" table)],
     txnConflictsOnOids db tid modified)
  else
    ([Ev.acquire_storage_lock,
      Ev.read_conn_fetch (sqlGetD "TXN_CONFLICTS" table)],
     txnConflicts db tid)

/-- Modelled from the spec: `TRASHED_ID` is the reserved trash sentinel
defined in `guillotina.db` (not among the sources at hand); the spec fixes
only that it is a fixed sentinel string, and no claim depends on its
spelling. -/
def TRASHED_ID : String := "trashed-sentinel"

/-- Semantics of the registered `GET_ANNOTATION` statement followed by
`fetchrow`: the first row with `of = $1` and `id = $2`. -/
def annotationFetch (db : List ObjRow) (oid aid : String) : Option ObjRow :=
  (db.filter (fun r => r.of == some oid && r.id == some aid)).head?

/-- `PostgresqlStorage.get_annotation` (named with a prime): fetch the
matching row and blank the result when its `parent_id` is the trash
sentinel. -/
def get_annotation' (db : List ObjRow) (oid aid : String) : Option ObjRow :=
  match annotationFetch db oid aid with
  | some r => if r.parent_id = some TRASHED_ID then none else some r
  | none => none

/-- `PostgresqlStorage.get_annotation_keys`: fetch all rows with
`of = $1` (the `GET_ANNOTATIONS_KEYS` statement), then keep only those
whose `parent_id` is not the trash sentinel. -/
def get_annotation_keys (db : List ObjRow) (oid : String) : List ObjRow :=
  (db.filter (fun r => r.of == some oid)).filter
    (fun r => !(r.parent_id == some TRASHED_ID))

/-- A call to `Connection.cursor(sql, *args)`: the SQL text handed to the
cursor and its positional arguments. -/
structure CursorCall where
  sql : String
  args : List String
deriving DecidableEq

/-- `PostgresqlStorage.read_blob_chunks` as written in the source: the
body executes `conn.cursor(bid)`, so the bid string itself is passed in
the SQL position with no arguments (no statement lookup happens). -/
def read_blob_chunks (bid : String) : CursorCall :=
  { sql := bid, args := [] }

/-- `BAD_CONNECTION_RESTART_DELAY = 0.25` seconds (exact as a rational). -/
def BAD_CONNECTION_RESTART_DELAY : ℚ := 1 / 4

/-- The three exception messages `_check_bad_connection` recognizes. -/
def bad_connection_messages : List String :=
  ["cannot perform operation: connection is closed",
   "connection is closed",
   "pool is closed"]

/-- The connection-level state of a `PostgresqlStorage`.  Pool identity is
modelled by a generation counter: recreating the pool yields a fresh
generation.  `read_conn` records the pool generation the shared read
session was acquired from, `tid_stmts` the generation of the read session
the TID statements were prepared on. -/
structure StorageState where
  dsn : String
  pool_gen : Nat
  read_conn : Option Nat
  tid_stmts : Option Nat
  connection_initialized_on : ℚ
deriving DecidableEq

/-- Engine-level exceptions raised on the recovery path. -/
inductive EngineErr where
  | conflict
deriving DecidableEq

/-- The awaited side effects of `restart_connection`, in order. -/
inductive RestartStep where
  | pool_close (timeout : ℚ)
  | pool_terminate
  | create_pool (dsn : String)
  | open_read_conn
  | prep_tid_statements
deriving DecidableEq

/-- Result of a recovery check: the steps performed, the resulting
storage state, and the exception raised (if any). -/
structure CheckRes where
  steps : List RestartStep
  state : StorageState
  err : Option EngineErr
deriving DecidableEq

/-- The no-action result: nothing done, state unchanged, nothing raised. -/
def CheckRes.noop (st : StorageState) : CheckRes :=
  { steps := [], state := st, err := none }

/-- `PostgresqlStorage.restart_connection` with its default timeout: close
the pool with a 0.1 second timeout, terminate it, recreate the pool with
the same DSN, reopen the shared read session, re-prepare the TID
statements, record the initialization time, and raise `ConflictError`. -/
def restart_connection (st : StorageState) (now : ℚ) : CheckRes :=
  let g := st.pool_gen + 1
  { steps := [RestartStep.pool_close (1 / 10), RestartStep.pool_terminate,
              RestartStep.create_pool st.dsn, RestartStep.open_read_conn,
              RestartStep.prep_tid_statements]
    state := { st with
               pool_gen := g
               read_conn := some g
               tid_stmts := some g
               connection_initialized_on := now }
    err := some EngineErr.conflict }

/-- `PostgresqlStorage._check_bad_connection` (leading underscore
dropped): restart only when the message is one of the recognized strings
and strictly more than the restart delay has elapsed since the last pool
initialization. -/
def check_bad_connection (st : StorageState) (now : ℚ) (msg : String) :
    CheckRes :=
  if msg ∈ bad_connection_messages then
    if BAD_CONNECTION_RESTART_DELAY < now - st.connection_initialized_on then
      restart_connection st now
    else CheckRes.noop st
  else CheckRes.noop st

/-- Outcome of `pool.acquire` inside `open`: a session, or a raised
`InterfaceError` with the given message. -/
inductive AcquireOutcome where
  | ok (conn : Nat)
  | interfaceError (msg : String)
deriving DecidableEq

/-- `PostgresqlStorage.open` (named with a prime): return the acquired
session; on `InterfaceError` run the bad-connection check under the
storage lock, propagating a raised `ConflictError` and otherwise falling
off the end of the function, i.e. returning `none`. -/
def open' (st : StorageState) (now : ℚ) (acq : AcquireOutcome) :
    CheckRes × Except EngineErr (Option Nat) :=
  match acq with
  | AcquireOutcome.ok c => (CheckRes.noop st, Except.ok (some c))
  | AcquireOutcome.interfaceError msg =>
      let r := check_bad_connection st now msg
      match r.err with
      | some e => (r, Except.error e)
      | none => (r, Except.ok none)

/-- C8: every registered count-returning write statement (UPSERT,
NAIVE_UPSERT, UPDATE, NAIVE_UPDATE) is its underlying write wrapped as
`WITH rows AS (write RETURNING 1) SELECT count(*) FROM rows`, and
executing such a wrapped write returns a single row whose count equals
the number of rows the write affected. -/
theorem claim8_wrapped_write_counts (t : String) :
    sqlGet "UPSERT" t
        = some (wrap_return_count (NAIVE_UPSERT t ++ "\nWHERE\n    tid = EXCLUDED.otid"))
  ∧ sqlGet "NAIVE_UPSERT" t = some (wrap_return_count (NAIVE_UPSERT t))
  ∧ sqlGet "UPDATE" t
        = some (wrap_return_count (NAIVE_UPDATE t ++ " AND tid = $7::int"))
  ∧ sqlGet "NAIVE_UPDATE" t = some (wrap_return_count (NAIVE_UPDATE t))
  ∧ (∀ txt, wrap_return_count txt
        = "WITH rows AS (\n" ++ txt ++ "\n    RETURNING 1\n)\nSELECT count(*) FROM rows")
  ∧ ∀ n, execWrapCount n = [n] := by
  refine ⟨rfl, rfl, rfl, rfl, fun txt => rfl, fun n => ?_⟩
  simp [execWrapCount, selectCountRows, returningOnes]

/-- C9: with an empty modified map, `get_conflicts` takes the storage lock,
runs no query on the read session, and returns the empty list. -/
theorem claim9_empty_modified_no_query (db : List ObjRow) (tid : Int)
    (table : String) :
    get_conflicts db [] tid table = ([Ev.acquire_storage_lock], []) := rfl

/-- C6 (code evaluation): `read_blob_chunks` hands the bid itself to the
cursor as the SQL text — for bid `b1` the executed statement is the string
`b1`, which is no SELECT and never mentions `chunk_index`, while the
registered single-chunk statement `READ_BLOB_CHUNK` does. -/
theorem claim6_read_blob_chunks_cursor_gets_bid :
    (read_blob_chunks "b1").sql = "b1"
  ∧ (read_blob_chunks "b1").args = []
  ∧ strContains (read_blob_chunks "b1").sql "chunk_index" = false
  ∧ strContains (read_blob_chunks "b1").sql "SELECT" = false
  ∧ strContains (sqlGetD "READ_BLOB_CHUNK" "blobs") "chunk_index" = true := by
  refine ⟨rfl, rfl, by decide, by decide, by decide⟩

/-- C4: with a non-empty modified map, `get_conflicts` takes the storage
lock and fetches on the shared read session: the oid-restricted
`TXN_CONFLICTS_ON_OIDS` statement (rows with tid above the caller's tid
among the modified oids) when strictly fewer than 1000 oids were
modified, and the global `TXN_CONFLICTS` statement otherwise. -/
theorem claim4_conflict_query_choice (db : List ObjRow) (modified : List String)
    (tid : Int) (table : String) (h : modified ≠ []) :
    get_conflicts db modified tid table =
      if modified.length < 1000 then
        ([Ev.acquire_storage_lock,
          Ev.read_conn_fetch (sqlGetD "TXN_CONFLICTS_ON_OIDS" table)],
         db.filter (fun r => decide (tid < r.tid) && modified.contains r.zoid))
      else
        ([Ev.acquire_storage_lock,
          Ev.read_conn_fetch (sqlGetD "TXN_CONFLICTS" table)],
         db.filter (fun r => decide (tid < r.tid))) := by
  have hlen : ¬ modified.length = 0 := fun hl => h (List.length_eq_zero.mp hl)
  unfold get_conflicts txnConflicts txnConflictsOnOids
  rw [if_neg hlen]

/-- Witness for C4 at a concrete table state and modified map. -/
theorem claim4_conflict_query_choice_witness :
    get_conflicts [⟨"a", 5, none, none, none⟩, ⟨"b", 0, none, none, none⟩]
        ["a"] 1 "objects"
      = ([Ev.acquire_storage_lock,
          Ev.read_conn_fetch (sqlGetD "TXN_CONFLICTS_ON_OIDS" "objects")],
         [⟨"a", 5, none, none, none⟩]) := by
  have h := claim4_conflict_query_choice
    [⟨"a", 5, none, none, none⟩, ⟨"b", 0, none, none, none⟩] ["a"] 1 "objects"
    (by decide)
  rw [h, if_pos (by norm_num)]
  rfl

/-- C7: annotation reads filter trashed rows — `get_annotation` returns
no result whenever the fetched row's parent is the trash sentinel, and
`get_annotation_keys` omits every row whose parent is the trash
sentinel. -/
theorem claim7_trash_filtered (db : List ObjRow) (oid aid : String) :
    (∀ r, annotationFetch db oid aid = some r →
        r.parent_id = some TRASHED_ID → get_annotation' db oid aid = none)
  ∧ ∀ r ∈ get_annotation_keys db oid, r.parent_id ≠ some TRASHED_ID := by
  constructor
  · intro r hr hp
    unfold get_annotation'
    rw [hr]
    simp [hp]
  · intro r hr
    have hm := List.mem_filter.mp hr
    simpa using hm.2

/-- Witness for C7: a single trashed annotation row is fetched but
reported as absent. -/
theorem claim7_trash_filtered_witness :
    get_annotation' [⟨"a1", 1, some "o1", some TRASHED_ID, some "k"⟩]
        "o1" "k" = none :=
  (claim7_trash_filtered [⟨"a1", 1, some "o1", some TRASHED_ID, some "k"⟩]
      "o1" "k").1
    ⟨"a1", 1, some "o1", some TRASHED_ID, some "k"⟩ rfl rfl

/-- C1: when the executed write reports a row count different from 1,
`store` raises `TIDConflictError` on the update path (no new marker and a
non-null prior serial) and never reaches the cache, while on the insert
path it only logs an error, does not raise, and still notifies the
cache. -/
theorem claim1_store_count_mismatch (oid : String) (old_serial : Option Int)
    (w : Writer) (obj : PObj) (tid : Int) (pickled : List Nat) (json : String)
    (table : String) (n : Int) (hn : n ≠ 1) :
    (obj.new_marker = false → obj.p_serial ≠ none →
        (store oid old_serial w obj tid pickled json table
            (ExecOutcome.ok [n])).outcome = Except.error StoreError.tidConflict
      ∧ (store oid old_serial w obj tid pickled json table
            (ExecOutcome.ok [n])).cache_stored = false)
  ∧ (obj.new_marker = true ∨ obj.p_serial = none →
        (store oid old_serial w obj tid pickled json table
            (ExecOutcome.ok [n])).outcome = Except.ok ()
      ∧ (store oid old_serial w obj tid pickled json table
            (ExecOutcome.ok [n])).logged_count_error = true
      ∧ (store oid old_serial w obj tid pickled json table
            (ExecOutcome.ok [n])).cache_stored = true) := by
  obtain ⟨nm, ps, po⟩ := obj
  constructor
  · rintro rfl hps
    obtain ⟨v, rfl⟩ : ∃ v, ps = some v := by
      cases ps with
      | none => exact absurd rfl hps
      | some v => exact ⟨v, rfl⟩
    simp [store, hn]
  · rintro (h | h)
    · subst h
      simp [store, hn]
    · subst h
      simp [store, hn]

/-- Witness for C1: concrete stores with a reported count of 0 on the
update path (raises) and on the insert path (logs, no raise). -/
theorem claim1_store_count_mismatch_witness :
    (store "a" (some 1) ⟨none, true, none, none, none, "X"⟩ ⟨false, some 1, "a"⟩
        2 [0] "null" "objects" (ExecOutcome.ok [0])).outcome
      = Except.error StoreError.tidConflict
  ∧ (store "b" none ⟨none, true, none, none, none, "X"⟩ ⟨true, none, "b"⟩
        2 [0] "null" "objects" (ExecOutcome.ok [0])).logged_count_error = true := by
  constructor
  · exact ((claim1_store_count_mismatch "a" (some 1)
      ⟨none, true, none, none, none, "X"⟩ ⟨false, some 1, "a"⟩ 2 [0] "null"
      "objects" 0 (by decide)).1 rfl (by decide)).1
  · exact ((claim1_store_count_mismatch "b" none
      ⟨none, true, none, none, none, "X"⟩ ⟨true, none, "b"⟩ 2 [0] "null"
      "objects" 0 (by decide)).2 (Or.inl rfl)).2.1

/-- C2: `store` executes `NAIVE_UPSERT` exactly when the object carries
the new marker or its prior serial is null; otherwise it executes the
`UPDATE` statement, whose text appends the guard `AND tid = $7::int` to
the `WHERE` clause of `NAIVE_UPDATE`, and the 7th positional parameter it
passes is the caller-supplied `old_serial`. -/
theorem claim2_statement_choice (oid : String) (old_serial : Option Int)
    (w : Writer) (obj : PObj) (tid : Int) (pickled : List Nat) (json : String)
    (table : String) (exec : ExecOutcome) :
    ((store oid old_serial w obj tid pickled json table exec).statement_name
        = "NAIVE_UPSERT" ↔ obj.new_marker = true ∨ obj.p_serial = none)
  ∧ (obj.new_marker = false → obj.p_serial ≠ none →
        (store oid old_serial w obj tid pickled json table exec).statement_name
            = "UPDATE"
      ∧ (store oid old_serial w obj tid pickled json table exec).statement_sql
            = wrap_return_count (NAIVE_UPDATE table ++ " AND tid = $7::int")
      ∧ (store oid old_serial w obj tid pickled json table exec).args.get? 6
            = some (SqlParam.optI old_serial)) := by
  obtain ⟨nm, ps, po⟩ := obj
  have hname : ∀ e, (store oid old_serial w ⟨nm, ps, po⟩ tid pickled json table
      e).statement_name
        = if !nm && ps.isSome then "UPDATE" else "NAIVE_UPSERT" := by
    intro e
    cases e <;> simp only [store] <;> (repeat' split) <;> rfl
  have hsql : ∀ e, (store oid old_serial w ⟨nm, ps, po⟩ tid pickled json table
      e).statement_sql
        = sqlGetD (if !nm && ps.isSome then "UPDATE" else "NAIVE_UPSERT")
            table := by
    intro e
    cases e <;> simp only [store] <;> (repeat' split) <;> rfl
  have hargs : ∀ e, (store oid old_serial w ⟨nm, ps, po⟩ tid pickled json table
      e).args.get? 6 = some (SqlParam.optI old_serial) := by
    intro e
    cases e <;> simp only [store] <;> (repeat' split) <;> rfl
  constructor
  · rw [hname exec]
    cases nm <;> cases ps <;> simp
  · rintro rfl hps
    obtain ⟨v, rfl⟩ : ∃ v, ps = some v := by
      cases ps with
      | none => exact absurd rfl hps
      | some v => exact ⟨v, rfl⟩
    refine ⟨by rw [hname exec]; rfl, by rw [hsql exec]; rfl, hargs exec⟩

/-- Witness for C2: a concrete update-path store uses the UPDATE
statement with `old_serial` in position 7, and a concrete new-object
store uses NAIVE_UPSERT. -/
theorem claim2_statement_choice_witness :
    (store "a" (some 3) ⟨none, true, none, none, none, "X"⟩ ⟨false, some 3, "a"⟩
        4 [] "null" "objects" (ExecOutcome.ok [1])).statement_name = "UPDATE"
  ∧ (store "a" (some 3) ⟨none, true, none, none, none, "X"⟩ ⟨false, some 3, "a"⟩
        4 [] "null" "objects" (ExecOutcome.ok [1])).args.get? 6
      = some (SqlParam.optI (some 3))
  ∧ (store "b" none ⟨none, true, none, none, none, "X"⟩ ⟨true, none, "b"⟩
        4 [] "null" "objects" (ExecOutcome.ok [1])).statement_name
      = "NAIVE_UPSERT" := by
  refine ⟨?_, ?_, ?_⟩
  · exact ((claim2_statement_choice "a" (some 3)
      ⟨none, true, none, none, none, "X"⟩ ⟨false, some 3, "a"⟩ 4 [] "null"
      "objects" (ExecOutcome.ok [1])).2 rfl (by decide)).1
  · exact ((claim2_statement_choice "a" (some 3)
      ⟨none, true, none, none, none, "X"⟩ ⟨false, some 3, "a"⟩ 4 [] "null"
      "objects" (ExecOutcome.ok [1])).2 rfl (by decide)).2.2
  · exact (claim2_statement_choice "b" none
      ⟨none, true, none, none, none, "X"⟩ ⟨true, none, "b"⟩ 4 [] "null"
      "objects" (ExecOutcome.ok [1])).1.mpr (Or.inl rfl)

/-- C3: `store` translates a unique violation whose detail contains
`Key (parent_id, id)` into `ConflictIdOnContainer` and re-raises any
other unique violation; a foreign-key violation records the object in the
transaction's deleted map under its oid and raises `TIDConflictError`. -/
theorem claim3_store_error_translation (oid : String) (old_serial : Option Int)
    (w : Writer) (obj : PObj) (tid : Int) (pickled : List Nat) (json : String)
    (table : String) :
    (∀ detail, strContains detail "Key (parent_id, id)" = true →
        (store oid old_serial w obj tid pickled json table
            (ExecOutcome.uniqueViolation detail)).outcome
          = Except.error StoreError.conflictIdOnContainer)
  ∧ (∀ detail, strContains detail "Key (parent_id, id)" = false →
        (store oid old_serial w obj tid pickled json table
            (ExecOutcome.uniqueViolation detail)).outcome
          = Except.error (StoreError.uniqueViolation detail))
  ∧ (store oid old_serial w obj tid pickled json table
        ExecOutcome.foreignKeyViolation).deleted = [obj.p_oid]
  ∧ (store oid old_serial w obj tid pickled json table
        ExecOutcome.foreignKeyViolation).outcome
      = Except.error StoreError.tidConflict := by
  refine ⟨fun detail h => ?_, fun detail h => ?_, ?_, ?_⟩
  · simp [store, h]
  · simp [store, h]
  · simp [store]
  · simp [store]

/-- Witness for C3: concrete unique-violation details with and without
the child-name key, and a foreign-key violation. -/
theorem claim3_store_error_translation_witness :
    (store "a" (some 1) ⟨none, true, none, none, none, "X"⟩ ⟨false, some 1, "a"⟩
        2 [] "null" "objects"
        (ExecOutcome.uniqueViolation
          "Key (parent_id, id)=(p, x) already exists.")).outcome
      = Except.error StoreError.conflictIdOnContainer
  ∧ (store "a" (some 1) ⟨none, true, none, none, none, "X"⟩ ⟨false, some 1, "a"⟩
        2 [] "null" "objects"
        (ExecOutcome.uniqueViolation "Key (zoid)=(a) already exists.")).outcome
      = Except.error
          (StoreError.uniqueViolation "Key (zoid)=(a) already exists.")
  ∧ (store "a" (some 1) ⟨none, true, none, none, none, "X"⟩ ⟨false, some 1, "a"⟩
        2 [] "null" "objects" ExecOutcome.foreignKeyViolation).deleted
      = ["a"] := by
  refine ⟨?_, ?_, ?_⟩
  · exact (claim3_store_error_translation "a" (some 1)
      ⟨none, true, none, none, none, "X"⟩ ⟨false, some 1, "a"⟩ 2 [] "null"
      "objects").1 "Key (parent_id, id)=(p, x) already exists." (by decide)
  · exact (claim3_store_error_translation "a" (some 1)
      ⟨none, true, none, none, none, "X"⟩ ⟨false, some 1, "a"⟩ 2 [] "null"
      "objects").2.1 "Key (zoid)=(a) already exists." (by decide)
  · exact (claim3_store_error_translation "a" (some 1)
      ⟨none, true, none, none, none, "X"⟩ ⟨false, some 1, "a"⟩ 2 [] "null"
      "objects").2.2.1

/-- C5: the bad-connection check runs `restart_connection` exactly when
the message is one of the three recognized strings and strictly more than
`BAD_CONNECTION_RESTART_DELAY = 0.25` seconds have elapsed since the last
pool initialization; `restart_connection` recreates the pool, reopens the
shared read session and re-prepares the TID statements on it, and always
raises `ConflictError`. -/
theorem claim5_bad_connection_recovery (st : StorageState) (now : ℚ)
    (msg : String) :
    (check_bad_connection st now msg =
        if msg ∈ bad_connection_messages
            ∧ BAD_CONNECTION_RESTART_DELAY < now - st.connection_initialized_on
        then restart_connection st now
        else CheckRes.noop st)
  ∧ (restart_connection st now).err = some EngineErr.conflict
  ∧ (restart_connection st now).state.pool_gen = st.pool_gen + 1
  ∧ (restart_connection st now).state.read_conn = some (st.pool_gen + 1)
  ∧ (restart_connection st now).state.tid_stmts = some (st.pool_gen + 1)
  ∧ (restart_connection st now).state.connection_initialized_on = now
  ∧ (restart_connection st now).steps =
      [RestartStep.pool_close (1 / 10), RestartStep.pool_terminate,
       RestartStep.create_pool st.dsn, RestartStep.open_read_conn,
       RestartStep.prep_tid_statements] := by
  refine ⟨?_, rfl, rfl, rfl, rfl, rfl, rfl⟩
  by_cases h1 : msg ∈ bad_connection_messages
  · by_cases h2 :
        BAD_CONNECTION_RESTART_DELAY < now - st.connection_initialized_on
    · simp [check_bad_connection, h1, h2]
    · simp [check_bad_connection, h1, h2]
  · simp [check_bad_connection, h1]

/-- C10: if pool acquisition inside `open` raises an `InterfaceError`
whose message is not one of the recognized bad-connection strings, or the
restart delay has not yet elapsed, `open` swallows the exception and
returns `none` instead of a session. -/
theorem claim10_open_swallows (st : StorageState) (now : ℚ) (msg : String)
    (h : msg ∉ bad_connection_messages
         ∨ now - st.connection_initialized_on ≤ BAD_CONNECTION_RESTART_DELAY) :
    (open' st now (AcquireOutcome.interfaceError msg)).2 = Except.ok none := by
  unfold open' check_bad_connection
  by_cases h1 : msg ∈ bad_connection_messages
  · by_cases h2 :
        BAD_CONNECTION_RESTART_DELAY < now - st.connection_initialized_on
    · rcases h with h | h
      · exact absurd h1 h
      · exact absurd h2 (not_lt.mpr h)
    · simp [h1, h2, CheckRes.noop]
  · simp [h1, CheckRes.noop]

/-- Witness for C10: a recognized message arriving 0.1 seconds after pool
initialization (inside the 0.25 second delay) makes `open` return
`none`. -/
theorem claim10_open_swallows_witness :
    (open' ⟨"postgres-dsn", 1, some 1, some 1, 0⟩ (1 / 10)
        (AcquireOutcome.interfaceError "connection is closed")).2
      = Except.ok none :=
  claim10_open_swallows ⟨"postgres-dsn", 1, some 1, some 1, 0⟩ (1 / 10)
    "connection is closed"
    (Or.inr (by norm_num [BAD_CONNECTION_RESTART_DELAY]))

end PG
